import Mathlib

/-
  Verification development for the `learn-vulkan` repository.

  Shallow embedding of the pure decision logic of the tutorial renderer:
  physical-device selection, queue-family scanning, swapchain configuration
  policy (format / present mode / extent / image count), the per-frame
  synchronisation objects, the frame-slot advance, and the command-buffer
  reset/record/submit behaviour of `draw_frame`.

  Driver-side handles are abstracted: a fallible Vulkan call is an
  `Except VkErr _` value carried in the input data, and opaque handles are
  represented by the data the program actually inspects (indices, flags,
  formats, numeric codes as in the C API).
-/

namespace LearnVulkan

/-- Claim-independent constant from `src/main.rs` line 29:
`const MAX_FRAMES_IN_FLIGHT: usize = 2;`. -/
def MAX_FRAMES_IN_FLIGHT : Nat := 2

/-- A Vulkan status code carried by a failed driver call (`ash::vk::Result`
error values; the numeric code is what the program displays). -/
structure VkErr where
  code : Int
deriving DecidableEq

/-- Decidable equality for `Except`, needed to evaluate the embedded
fallible driver calls on concrete inputs. -/
instance exceptDecEq {ε α : Type} [DecidableEq ε] [DecidableEq α] :
    DecidableEq (Except ε α) := fun a b =>
  match a, b with
  | .error x, .error y =>
    if h : x = y then .isTrue (by rw [h]) else .isFalse (by simp [h])
  | .error _, .ok _ => .isFalse (by simp)
  | .ok _, .error _ => .isFalse (by simp)
  | .ok x, .ok y =>
    if h : x = y then .isTrue (by rw [h]) else .isFalse (by simp [h])

/-- The `u32` modulus; swapchain image counts are `u32` in the source. -/
def U32_MOD : Nat := 2 ^ 32

/- ------------------------------------------------------------------ -/
/- sync_objects.rs                                                     -/
/- ------------------------------------------------------------------ -/

/-- Embeds the three vectors built by `SyncObjects::new`
(`src/sync_objects.rs` lines 13-46).  Each created handle is represented by
a unit value; only the multiplicity is observable here. -/
structure SyncObjects where
  image_available_semaphores : List Unit
  render_finished_semaphores : List Unit
  in_flight_fences : List Unit
deriving DecidableEq

/-- Embeds `SyncObjects::new(logical_device, count)` assuming every
`create_semaphore` / `create_fence` call succeeds.  The Rust loop is
`for _ in 0..=count { push; push; push }`: the inclusive range `0..=count`
iterates `count + 1` times, and each iteration pushes one handle onto each
of the three vectors. -/
def SyncObjects.new (count : Nat) : SyncObjects :=
  (List.range (count + 1)).foldl
    (fun s _ =>
      { image_available_semaphores := s.image_available_semaphores ++ [()]
        render_finished_semaphores := s.render_finished_semaphores ++ [()]
        in_flight_fences := s.in_flight_fences ++ [()] })
    { image_available_semaphores := []
      render_finished_semaphores := []
      in_flight_fences := [] }

/- ------------------------------------------------------------------ -/
/- main.rs : frame-slot advance                                        -/
/- ------------------------------------------------------------------ -/

/-- Embeds the final statement of `HelloTriangleApplication::draw_frame`
(`src/main.rs` line 269):
`self.current_frame = (self.current_frame + 1) % MAX_FRAMES_IN_FLIGHT;`.
This is the only assignment to `current_frame` in `draw_frame`. -/
def draw_frame_advance (current_frame : Nat) : Nat :=
  (current_frame + 1) % MAX_FRAMES_IN_FLIGHT

/- ------------------------------------------------------------------ -/
/- physical_device.rs : surface formats, present modes, extent         -/
/- ------------------------------------------------------------------ -/

/-- `ash::vk::Format::B8G8R8A8_SRGB` (numeric code in the C API). -/
def B8G8R8A8_SRGB : Nat := 50

/-- `ash::vk::ColorSpaceKHR::SRGB_NONLINEAR` (numeric code in the C API). -/
def SRGB_NONLINEAR : Nat := 0

/-- `ash::vk::PresentModeKHR::MAILBOX` (numeric code in the C API). -/
def MAILBOX : Nat := 1

/-- `ash::vk::PresentModeKHR::FIFO` (numeric code in the C API). -/
def FIFO : Nat := 2

/-- Embeds `ash::vk::SurfaceFormatKHR`: a pair of a format code and a
color-space code, the two fields the program inspects. -/
structure SurfaceFormatKHR where
  format : Nat
  color_space : Nat
deriving DecidableEq

/-- Embeds `ash::vk::Extent2D`. -/
structure Extent2D where
  width : Nat
  height : Nat
deriving DecidableEq

/-- Embeds the fields of `ash::vk::SurfaceCapabilitiesKHR` that the program
reads (`choose_extent` and `Swapchain::new`); the remaining fields are
passed through untouched and are omitted. -/
structure SurfaceCapabilitiesKHR where
  min_image_count : Nat
  max_image_count : Nat
  min_image_extent : Extent2D
  max_image_extent : Extent2D
deriving DecidableEq

/-- Embeds `SwapchainSupportDetails` (`src/physical_device.rs` lines
156-162). -/
structure SwapchainSupportDetails where
  capabilities : SurfaceCapabilitiesKHR
  formats : List SurfaceFormatKHR
  present_modes : List Nat
deriving DecidableEq

/-- The loop body condition of `choose_format`:
`format.format == vk::Format::B8G8R8A8_SRGB && format.color_space ==
ColorSpaceKHR::SRGB_NONLINEAR`. -/
def surface_format_pred (format : SurfaceFormatKHR) : Bool :=
  format.format == B8G8R8A8_SRGB && format.color_space == SRGB_NONLINEAR

/-- Embeds `SwapchainSupportDetails::choose_format` (`src/physical_device.rs`
lines 194-204).  The `for` loop returns the first element satisfying the
condition (`List.find?`); when no element matches, the source returns
`&self.formats[0]`, which panics on an empty vector — modelled by
`List.head?` returning `none`. -/
def SwapchainSupportDetails.choose_format (s : SwapchainSupportDetails) :
    Option SurfaceFormatKHR :=
  match s.formats.find? surface_format_pred with
  | some format => some format
  | none => s.formats.head?

/-- Embeds `SwapchainSupportDetails::choose_present_mode`
(`src/physical_device.rs` lines 206-214): the first element equal to
`MAILBOX` is returned, otherwise `FIFO`. -/
def SwapchainSupportDetails.choose_present_mode (s : SwapchainSupportDetails) :
    Nat :=
  match s.present_modes.find? (fun present_mode => present_mode == MAILBOX) with
  | some present_mode => present_mode
  | none => FIFO

/-- Embeds `nalgebra::clamp`, the clamp used by `choose_extent`:
`if val > min { if val < max { val } else { max } } else { min }`. -/
def clamp (val min max : Nat) : Nat :=
  if val > min then (if val < max then val else max) else min

/-- Embeds `SwapchainSupportDetails::choose_extent` (`src/physical_device.rs`
lines 216-235).  `size` is the window framebuffer size
(`window.get_framebuffer_size()`, nonnegative, cast `as u32` in the
source); each component is clamped into the surface capability bounds. -/
def SwapchainSupportDetails.choose_extent (s : SwapchainSupportDetails)
    (size : Nat × Nat) : Extent2D :=
  { width :=
      clamp size.1 s.capabilities.min_image_extent.width
        s.capabilities.max_image_extent.width
    height :=
      clamp size.2 s.capabilities.min_image_extent.height
        s.capabilities.max_image_extent.height }

/- ------------------------------------------------------------------ -/
/- swapchain.rs : requested image count                                -/
/- ------------------------------------------------------------------ -/

/-- Embeds the image-count computation of `Swapchain::new`
(`src/swapchain.rs` lines 34-40):
`let mut image_count = min_image_count + 1;` (a `u32` addition, hence the
modulus) followed by
`if max_image_count > 0 && image_count > max_image_count
 { image_count = max_image_count; }`. -/
def swapchain_image_count (capabilities : SurfaceCapabilitiesKHR) : Nat :=
  let image_count := (capabilities.min_image_count + 1) % U32_MOD
  if capabilities.max_image_count > 0 ∧
      image_count > capabilities.max_image_count then
    capabilities.max_image_count
  else
    image_count

/- ------------------------------------------------------------------ -/
/- physical_device.rs : queue-family scan                              -/
/- ------------------------------------------------------------------ -/

/-- The per-family data inspected by `find_queue_families`:
whether `queue_flags` contains `GRAPHICS`, and the (fallible) result of
`get_physical_device_surface_support` for this family index. -/
structure QueueFamilyProperties where
  graphics : Bool
  surface_support : Except VkErr Bool
deriving DecidableEq

/-- Embeds `QueueFamilyIndices` (`src/physical_device.rs` lines 90-94);
`usize` indices become `Nat`. -/
structure QueueFamilyIndices where
  graphics_family : Option Nat
  present_family : Option Nat
deriving DecidableEq

/-- Embeds `QueueFamilyIndices::is_complete`. -/
def QueueFamilyIndices.is_complete (s : QueueFamilyIndices) : Bool :=
  s.graphics_family.isSome && s.present_family.isSome

/-- Embeds the loop of `QueueFamilyIndices::find_queue_families`
(`src/physical_device.rs` lines 110-126): `i` is the enumeration index and
`indices` the mutable accumulator.  Each graphics-capable family overwrites
`graphics_family` with its own index; each family whose surface-support
query returns `true` overwrites `present_family`; a failing surface-support
query aborts the whole function with the error (`?` operator). -/
def find_queue_families_loop :
    List QueueFamilyProperties → Nat → QueueFamilyIndices →
      Except VkErr QueueFamilyIndices
  | [], _, indices => .ok indices
  | v :: rest, i, indices =>
    let indices1 :=
      if v.graphics then { indices with graphics_family := some i } else indices
    match v.surface_support with
    | .error e => .error e
    | .ok b =>
      let indices2 :=
        if b then { indices1 with present_family := some i } else indices1
      find_queue_families_loop rest (i + 1) indices2

/-- Embeds `QueueFamilyIndices::find_queue_families`
(`src/physical_device.rs` lines 97-129), starting from
`Self::default()` (both fields `None`) at index `0`. -/
def find_queue_families (queue_family : List QueueFamilyProperties) :
    Except VkErr QueueFamilyIndices :=
  find_queue_families_loop queue_family 0
    { graphics_family := none, present_family := none }

/- ------------------------------------------------------------------ -/
/- physical_device.rs : device selection                               -/
/- ------------------------------------------------------------------ -/

/-- `logical_device.rs` line 13:
`pub static REQUIRED_EXTENSIONS: [&CStr; 1] = [KHR_SWAPCHAIN_NAME];`. -/
def REQUIRED_EXTENSIONS : List String := ["VK_KHR_swapchain"]

/-- Embeds `check_device_extension_support` (`src/physical_device.rs`
lines 136-154) applied to a successfully enumerated extension list:
every required extension name must occur among the available ones. -/
def check_device_extension_support (available_extensions : List String) :
    Bool :=
  REQUIRED_EXTENSIONS.all fun v =>
    available_extensions.any fun extension => v == extension

/-- The per-device data consumed by `PhysicalDevice::new`: the device's
queue-family properties, the (fallible) result of
`enumerate_device_extension_properties`, and the (fallible) result of
`SwapchainSupportDetails::query_support` — the three surface queries of
`query_support` are collapsed into one `Except`, since any failing one
propagates identically via `?`. -/
structure PhysicalDeviceData where
  queue_families : List QueueFamilyProperties
  available_extensions : Except VkErr (List String)
  swapchain_query : Except VkErr SwapchainSupportDetails
deriving DecidableEq

/-- Embeds `PhysicalDeviceError` (`src/physical_device.rs` lines 238-243). -/
inductive PhysicalDeviceError where
  | Vulkan (e : VkErr)
  | NoDevices
  | NoSuitableDevices
deriving DecidableEq

/-- The data stored by a successful `PhysicalDevice::new`
(`InnerPhysicalDevice` minus the live handles): the chosen device is
identified by its enumeration index. -/
structure SelectedPhysicalDevice where
  device : Nat
  graphics_family : Nat
  present_family : Nat
  swapchain_support : SwapchainSupportDetails
deriving DecidableEq

/-- Embeds the `for physical_device in devices` loop of
`PhysicalDevice::new` (`src/physical_device.rs` lines 32-58); `idx` is the
enumeration index of the head device.
A device whose `find_queue_families` fails is silently skipped
(`if let Ok(v)`).  If its indices are complete, a failing extension
enumeration or swapchain query aborts the whole function with the wrapped
error (`map_err(PhysicalDeviceError::from)?` and `?`).  A device passing
all three checks is returned; `v.graphics_family.unwrap()` is modelled by
`Option.getD 0`, reachable only when `is_complete` guarantees `isSome`. -/
def physical_device_new_loop :
    List PhysicalDeviceData → Nat →
      Except PhysicalDeviceError SelectedPhysicalDevice
  | [], _ => .error .NoSuitableDevices
  | d :: rest, idx =>
    match find_queue_families d.queue_families with
    | .error _ => physical_device_new_loop rest (idx + 1)
    | .ok v =>
      if v.is_complete then
        match d.available_extensions with
        | .error e => .error (.Vulkan e)
        | .ok available =>
          if check_device_extension_support available then
            match d.swapchain_query with
            | .error e => .error (.Vulkan e)
            | .ok swapchain_support =>
              if !swapchain_support.formats.isEmpty &&
                  !swapchain_support.present_modes.isEmpty then
                .ok
                  { device := idx
                    graphics_family := v.graphics_family.getD 0
                    present_family := v.present_family.getD 0
                    swapchain_support := swapchain_support }
              else
                physical_device_new_loop rest (idx + 1)
          else
            physical_device_new_loop rest (idx + 1)
      else
        physical_device_new_loop rest (idx + 1)

/-- Embeds `PhysicalDevice::new` (`src/physical_device.rs` lines 20-59):
a failing `enumerate_physical_devices` is wrapped and returned; an empty
enumeration yields `NoDevices`; otherwise the selection loop runs and a
fruitless loop yields `NoSuitableDevices`. -/
def PhysicalDevice.new
    (enumerate_physical_devices : Except VkErr (List PhysicalDeviceData)) :
    Except PhysicalDeviceError SelectedPhysicalDevice :=
  match enumerate_physical_devices with
  | .error e => .error (.Vulkan e)
  | .ok devices =>
    if devices.isEmpty then .error .NoDevices
    else physical_device_new_loop devices 0

/-- Per-device summary of one iteration of the selection loop: the device
is selected, skipped (soft failure: queue-family scan error, incomplete
indices, unsupported extension, or empty format/present-mode lists), or
aborts the search with a wrapped Vulkan error. -/
inductive DeviceStep where
  | selected (graphics_family present_family : Nat)
      (swapchain_support : SwapchainSupportDetails)
  | skipped
  | failed (e : VkErr)
deriving DecidableEq

/-- The outcome of the loop body of `PhysicalDevice::new` on one device,
mirroring `physical_device_new_loop` branch by branch. -/
def device_step (d : PhysicalDeviceData) : DeviceStep :=
  match find_queue_families d.queue_families with
  | .error _ => .skipped
  | .ok v =>
    if v.is_complete then
      match d.available_extensions with
      | .error e => .failed e
      | .ok available =>
        if check_device_extension_support available then
          match d.swapchain_query with
          | .error e => .failed e
          | .ok swapchain_support =>
            if !swapchain_support.formats.isEmpty &&
                !swapchain_support.present_modes.isEmpty then
              .selected (v.graphics_family.getD 0) (v.present_family.getD 0)
                swapchain_support
            else
              .skipped
        else
          .skipped
    else
      .skipped

/- ------------------------------------------------------------------ -/
/- command_buffers.rs and the draw_frame command path                  -/
/- ------------------------------------------------------------------ -/

/-- Abstract state of the allocated command buffers: one `Bool` per buffer
recording whether the buffer currently holds recorded commands. -/
structure CommandBuffersState where
  recorded : List Bool
deriving DecidableEq

/-- Embeds `CommandBuffers::new` (`src/command_buffers.rs` lines 21-44):
`command_buffer_count(MAX_FRAMES_IN_FLIGHT as u32)` allocates
`MAX_FRAMES_IN_FLIGHT` primary command buffers, all initially empty. -/
def CommandBuffers.new : CommandBuffersState :=
  { recorded := List.replicate MAX_FRAMES_IN_FLIGHT false }

/-- Embeds `CommandBuffers::reset` (`src/command_buffers.rs` lines 50-62):
`let command_buffer = self.0.command_buffers[0];` — the reset index is
hard-coded to `0`; the buffer returns to the unrecorded state. -/
def CommandBuffers.reset (s : CommandBuffersState) : CommandBuffersState :=
  { recorded := s.recorded.set 0 false }

/-- Embeds the recording effect of `CommandBuffers::record`
(`src/command_buffers.rs` lines 64-159) on buffer
`command_buffer_index`. -/
def CommandBuffers.record (s : CommandBuffersState)
    (command_buffer_index : Nat) : CommandBuffersState :=
  { recorded := s.recorded.set command_buffer_index true }

/-- The command-buffer-visible effect of one `draw_frame` call: the new
buffer state and the indices of the buffers passed to `queue_submit`. -/
structure DrawFrameCommands where
  state : CommandBuffersState
  submitted : List Nat
deriving DecidableEq

/-- Embeds the command-buffer path of `HelloTriangleApplication::draw_frame`
(`src/main.rs` lines 229-261): `self.command_buffers.reset()`, then
`self.command_buffers.record(0, ...)` with hard-coded buffer index `0`,
then a submit whose `command_buffers` field is the whole allocated array
(`self.command_buffers.command_buffers()`).  `current_frame` is taken as an
argument to record that the path does not depend on it. -/
def draw_frame_commands (s : CommandBuffersState) (current_frame : Nat) :
    DrawFrameCommands :=
  let s1 := CommandBuffers.reset s
  let s2 := CommandBuffers.record s1 0
  { state := s2, submitted := List.range s2.recorded.length }

/-- Iterated `draw_frame` calls starting from freshly allocated command
buffers; `frames` lists the `current_frame` value of each successive call
(most recent first). -/
def run_draw_frames : List Nat → CommandBuffersState
  | [] => CommandBuffers.new
  | current_frame :: rest =>
    (draw_frame_commands (run_draw_frames rest) current_frame).state

/- ------------------------------------------------------------------ -/
/- Comparison definitions (spec side) and concrete inputs              -/
/- ------------------------------------------------------------------ -/

/-- Index of the last element of a list satisfying `p`, if any — the
spec-side comparison value for the queue-family scan. -/
def lastIdxWhere {α : Type} (p : α → Bool) : List α → Option Nat
  | [] => none
  | a :: rest =>
    match lastIdxWhere p rest with
    | some j => some (j + 1)
    | none => if p a then some 0 else none

/-- Whether a queue family reported surface support (a failing query never
reports support; under an error-free scan this is exactly a `true`
answer). -/
def reports_present_support (f : QueueFamilyProperties) : Bool :=
  match f.surface_support with
  | .ok b => b
  | .error _ => false

/-- Shifts an optional relative index by `i`, with a fallback: the value
the scanning loop's accumulator takes after processing a suffix. -/
def shift_or (o : Option Nat) (i : Nat) (fallback : Option Nat) :
    Option Nat :=
  match o with
  | some j => some (i + j)
  | none => fallback

/-- The format the `choose_format` loop looks for:
`B8G8R8A8_SRGB` with `SRGB_NONLINEAR` color space. -/
def preferred_surface_format : SurfaceFormatKHR :=
  { format := B8G8R8A8_SRGB, color_space := SRGB_NONLINEAR }

/-- A concrete, fully supported swapchain-support snapshot. -/
def cex_c2_support : SwapchainSupportDetails :=
  { capabilities :=
      { min_image_count := 2, max_image_count := 8
        min_image_extent := { width := 1, height := 1 }
        max_image_extent := { width := 4096, height := 4096 } }
    formats := [preferred_surface_format]
    present_modes := [FIFO] }

/-- A concrete device whose only queue family answers the graphics check
but whose surface-support query fails with `VK_ERROR_SURFACE_LOST_KHR`
(status `-1000000000`); extension and swapchain queries succeed. -/
def cex_c2_device : PhysicalDeviceData :=
  { queue_families :=
      [{ graphics := true, surface_support := .error { code := -1000000000 } }]
    available_extensions := .ok REQUIRED_EXTENSIONS
    swapchain_query := .ok cex_c2_support }

/-- A concrete, fully supported swapchain-support snapshot. -/
def wit_c3_support : SwapchainSupportDetails :=
  { capabilities :=
      { min_image_count := 2, max_image_count := 8
        min_image_extent := { width := 1, height := 1 }
        max_image_extent := { width := 4096, height := 4096 } }
    formats := [preferred_surface_format]
    present_modes := [FIFO] }

/-- A concrete device with no queue families at all: its indices stay
incomplete, so the selection loop skips it. -/
def wit_c3_device_zero : PhysicalDeviceData :=
  { queue_families := []
    available_extensions := .ok REQUIRED_EXTENSIONS
    swapchain_query := .ok wit_c3_support }

/-- A concrete device passing all three qualification checks. -/
def wit_c3_device_one : PhysicalDeviceData :=
  { queue_families := [{ graphics := true, surface_support := .ok true }]
    available_extensions := .ok REQUIRED_EXTENSIONS
    swapchain_query := .ok wit_c3_support }

/-- A concrete support snapshot whose format list holds the preferred
format in second position, behind a non-preferred one (code `44` is
`B8G8R8A8_UNORM`). -/
def wit_c4_support : SwapchainSupportDetails :=
  { capabilities :=
      { min_image_count := 2, max_image_count := 8
        min_image_extent := { width := 1, height := 1 }
        max_image_extent := { width := 4096, height := 4096 } }
    formats := [{ format := 44, color_space := SRGB_NONLINEAR },
      preferred_surface_format]
    present_modes := [FIFO] }

/-- A concrete support snapshot with extent bounds `[10, 20] × [10, 20]`. -/
def wit_c6_support : SwapchainSupportDetails :=
  { capabilities :=
      { min_image_count := 2, max_image_count := 8
        min_image_extent := { width := 10, height := 10 }
        max_image_extent := { width := 20, height := 20 } }
    formats := [preferred_surface_format]
    present_modes := [FIFO] }

/-- Concrete surface capabilities with `min_image_count + 1` above the
nonzero `max_image_count` cap. -/
def wit_c7_capabilities : SurfaceCapabilitiesKHR :=
  { min_image_count := 2, max_image_count := 3
    min_image_extent := { width := 1, height := 1 }
    max_image_extent := { width := 4096, height := 4096 } }

/-- A concrete queue-family list with two graphics-capable families
(indices 0 and 1) and two present-capable families (indices 1 and 2). -/
def wit_c9_families : List QueueFamilyProperties :=
  [{ graphics := true, surface_support := .ok false },
    { graphics := true, surface_support := .ok true },
    { graphics := false, surface_support := .ok true }]

/- ================================================================== -/
/- Theorems                                                            -/
/- ================================================================== -/

/-- Claim C1 (code bug): at the input `count = MAX_FRAMES_IN_FLIGHT = 2`,
`SyncObjects::new` creates three image-available semaphores, three
render-finished semaphores and three in-flight fences — one more of each
than the `count` the spec states, because the loop `for _ in 0..=count`
runs `count + 1` times while the vectors were allocated with
`Vec::with_capacity(count)` and the frame loop only ever indexes slots
`0 .. MAX_FRAMES_IN_FLIGHT`. -/
theorem sync_objects_new_off_by_one :
    (SyncObjects.new MAX_FRAMES_IN_FLIGHT).image_available_semaphores.length = 3 ∧
    (SyncObjects.new MAX_FRAMES_IN_FLIGHT).render_finished_semaphores.length = 3 ∧
    (SyncObjects.new MAX_FRAMES_IN_FLIGHT).in_flight_fences.length = 3 := by
  decide

/-- The loop condition of `choose_format` holds exactly for the preferred
format/color-space pair. -/
theorem surface_format_pred_iff (f : SurfaceFormatKHR) :
    surface_format_pred f = true ↔ f = preferred_surface_format := by
  cases f
  simp [surface_format_pred, preferred_surface_format, B8G8R8A8_SRGB,
    SRGB_NONLINEAR, SurfaceFormatKHR.mk.injEq]

/-- The first element satisfying the `choose_format` condition is the
preferred pair itself, whenever it occurs anywhere in the list. -/
theorem find_preferred_format (l : List SurfaceFormatKHR) :
    l.find? surface_format_pred =
      if preferred_surface_format ∈ l then some preferred_surface_format
      else none := by
  induction l with
  | nil => simp
  | cons a rest ih =>
    by_cases ha : a = preferred_surface_format
    · subst ha
      rw [List.find?_cons_of_pos _ ((surface_format_pred_iff _).mpr rfl)]
      simp
    · rw [List.find?_cons_of_neg, ih]
      · have hne2 : ¬preferred_surface_format = a := fun hc => ha hc.symm
        simp [List.mem_cons, hne2]
      · simp [surface_format_pred_iff, ha]

/-- Claim C4: on a non-empty format list, `choose_format` returns the
`B8G8R8A8_SRGB`/`SRGB_NONLINEAR` pair whenever it occurs anywhere in the
list, and otherwise returns the first element of the list. -/
theorem choose_format_spec (s : SwapchainSupportDetails)
    (hne : s.formats ≠ []) :
    (preferred_surface_format ∈ s.formats →
      s.choose_format = some preferred_surface_format) ∧
    (preferred_surface_format ∉ s.formats →
      s.choose_format = some (s.formats.head hne)) := by
  unfold SwapchainSupportDetails.choose_format
  rw [find_preferred_format]
  constructor
  · intro hmem
    simp [hmem]
  · intro hmem
    simp [hmem, List.head?_eq_head hne]

/-- Witness for claim C4: with the preferred pair in second position the
claim's hypotheses hold and the preferred pair is chosen. -/
theorem choose_format_spec_witness :
    wit_c4_support.formats ≠ [] ∧
    wit_c4_support.choose_format = some preferred_surface_format := by
  refine ⟨by decide, ?_⟩
  exact (choose_format_spec wit_c4_support (by decide)).1 (by decide)

/-- The first element of a present-mode list equal to `MAILBOX` is
`MAILBOX` itself, whenever it occurs anywhere in the list. -/
theorem find_mailbox (l : List Nat) :
    l.find? (fun present_mode => present_mode == MAILBOX) =
      if MAILBOX ∈ l then some MAILBOX else none := by
  induction l with
  | nil => simp
  | cons a rest ih =>
    by_cases ha : a = MAILBOX
    · subst ha
      rw [List.find?_cons_of_pos _ (by simp)]
      simp
    · rw [List.find?_cons_of_neg, ih]
      · have hne2 : ¬MAILBOX = a := fun hc => ha hc.symm
        simp [List.mem_cons, hne2]
      · simp [ha]

/-- Claim C5: `choose_present_mode` returns `MAILBOX` whenever `MAILBOX`
occurs anywhere in the present-mode list, and `FIFO` otherwise (including
for the empty list). -/
theorem choose_present_mode_spec (s : SwapchainSupportDetails) :
    s.choose_present_mode =
      if MAILBOX ∈ s.present_modes then MAILBOX else FIFO := by
  unfold SwapchainSupportDetails.choose_present_mode
  rw [find_mailbox]
  by_cases hmem : MAILBOX ∈ s.present_modes <;> simp [hmem]

/-- Claim C6: with component-wise ordered extent bounds, `choose_extent`
clamps each framebuffer-size component into
`[min_image_extent, max_image_extent]`: a component below the minimum
becomes the minimum, one above the maximum becomes the maximum, and one
already within bounds is unchanged. -/
theorem choose_extent_spec (s : SwapchainSupportDetails) (w h : Nat)
    (hw : s.capabilities.min_image_extent.width ≤
      s.capabilities.max_image_extent.width)
    (hh : s.capabilities.min_image_extent.height ≤
      s.capabilities.max_image_extent.height) :
    (w < s.capabilities.min_image_extent.width →
      (s.choose_extent (w, h)).width = s.capabilities.min_image_extent.width) ∧
    (w > s.capabilities.max_image_extent.width →
      (s.choose_extent (w, h)).width = s.capabilities.max_image_extent.width) ∧
    (s.capabilities.min_image_extent.width ≤ w →
      w ≤ s.capabilities.max_image_extent.width →
      (s.choose_extent (w, h)).width = w) ∧
    (h < s.capabilities.min_image_extent.height →
      (s.choose_extent (w, h)).height =
        s.capabilities.min_image_extent.height) ∧
    (h > s.capabilities.max_image_extent.height →
      (s.choose_extent (w, h)).height =
        s.capabilities.max_image_extent.height) ∧
    (s.capabilities.min_image_extent.height ≤ h →
      h ≤ s.capabilities.max_image_extent.height →
      (s.choose_extent (w, h)).height = h) := by
  simp only [SwapchainSupportDetails.choose_extent, clamp]
  refine ⟨?_, ?_, ?_, ?_, ?_, ?_⟩ <;> intros <;> split_ifs <;> omega

/-- Witness for claim C6: bounds `[10, 20]` in each component, input
`(5, 25)`: the width is raised to the minimum and the height lowered to
the maximum. -/
theorem choose_extent_spec_witness :
    wit_c6_support.capabilities.min_image_extent.width ≤
        wit_c6_support.capabilities.max_image_extent.width ∧
    wit_c6_support.capabilities.min_image_extent.height ≤
        wit_c6_support.capabilities.max_image_extent.height ∧
    (wit_c6_support.choose_extent (5, 25)).width = 10 ∧
    (wit_c6_support.choose_extent (5, 25)).height = 20 := by
  have hspec := choose_extent_spec wit_c6_support 5 25 (by decide) (by decide)
  exact ⟨by decide, by decide, hspec.1 (by decide), hspec.2.2.2.2.1 (by decide)⟩

/-- Claim C7: for `u32` capability values that do not overflow, the
requested swapchain image count is `min_image_count + 1` when
`max_image_count` is zero or not exceeded by it, and `max_image_count`
when the nonzero cap is exceeded. -/
theorem swapchain_image_count_spec (c : SurfaceCapabilitiesKHR)
    (hrange : c.min_image_count + 1 < U32_MOD) :
    (c.max_image_count = 0 ∨ c.min_image_count + 1 ≤ c.max_image_count →
      swapchain_image_count c = c.min_image_count + 1) ∧
    (c.max_image_count ≠ 0 → c.min_image_count + 1 > c.max_image_count →
      swapchain_image_count c = c.max_image_count) := by
  simp only [swapchain_image_count, Nat.mod_eq_of_lt hrange]
  refine ⟨fun hcase => ?_, fun h0 hgt => ?_⟩ <;> split_ifs <;> omega

/-- Witness for claim C7: `min_image_count = 2`, `max_image_count = 3`:
the requested count `min + 1 = 3` fits the cap and is used. -/
theorem swapchain_image_count_spec_witness :
    wit_c7_capabilities.min_image_count + 1 < U32_MOD ∧
    swapchain_image_count wit_c7_capabilities = 3 := by
  refine ⟨by decide, ?_⟩
  exact (swapchain_image_count_spec wit_c7_capabilities (by decide)).1
    (by decide)

/-- Claim C8: the frame-slot advance maps `current_frame` to
`(current_frame + 1) % MAX_FRAMES_IN_FLIGHT`; applying it
`MAX_FRAMES_IN_FLIGHT` times from slot `0` returns to slot `0`, and every
advance lands strictly below `MAX_FRAMES_IN_FLIGHT`. -/
theorem draw_frame_advance_spec :
    (∀ current_frame : Nat,
      draw_frame_advance current_frame =
        (current_frame + 1) % MAX_FRAMES_IN_FLIGHT) ∧
    draw_frame_advance^[MAX_FRAMES_IN_FLIGHT] 0 = 0 ∧
    (∀ current_frame : Nat,
      draw_frame_advance current_frame < MAX_FRAMES_IN_FLIGHT) := by
  refine ⟨fun _ => rfl, by decide, fun _ => Nat.mod_lt _ (by decide)⟩

/-- One unrolling of the device-selection loop, phrased through the
per-device outcome `device_step`. -/
theorem physical_device_new_loop_cons (d : PhysicalDeviceData)
    (rest : List PhysicalDeviceData) (idx : Nat) :
    physical_device_new_loop (d :: rest) idx =
      match device_step d with
      | .selected g p s =>
        .ok { device := idx, graphics_family := g, present_family := p,
              swapchain_support := s }
      | .skipped => physical_device_new_loop rest (idx + 1)
      | .failed e => .error (.Vulkan e) := by
  cases hf : find_queue_families d.queue_families with
  | error e => simp [physical_device_new_loop, device_step, hf]
  | ok v =>
    cases hvc : v.is_complete with
    | false => simp [physical_device_new_loop, device_step, hf, hvc]
    | true =>
      cases he : d.available_extensions with
      | error e => simp [physical_device_new_loop, device_step, hf, hvc, he]
      | ok available =>
        cases hce : check_device_extension_support available with
        | false =>
          simp [physical_device_new_loop, device_step, hf, hvc, he, hce]
        | true =>
          cases hq : d.swapchain_query with
          | error e =>
            simp [physical_device_new_loop, device_step, hf, hvc, he, hce, hq]
          | ok ss =>
            cases hform : (!ss.formats.isEmpty && !ss.present_modes.isEmpty) with
            | false =>
              simp [physical_device_new_loop, device_step, hf, hvc, he, hce,
                hq, hform]
            | true =>
              simp [physical_device_new_loop, device_step, hf, hvc, he, hce,
                hq, hform]

/-- The device-selection loop never reports `NoDevices`; that error only
arises from an empty enumeration. -/
theorem physical_device_new_loop_ne_noDevices (l : List PhysicalDeviceData)
    (idx : Nat) :
    physical_device_new_loop l idx ≠
      Except.error PhysicalDeviceError.NoDevices := by
  induction l generalizing idx with
  | nil => simp [physical_device_new_loop]
  | cons d rest ih =>
    rw [physical_device_new_loop_cons]
    cases hs : device_step d with
    | selected g p s => simp
    | skipped => exact ih (idx + 1)
    | failed e => simp

/-- The device-selection loop reports `NoSuitableDevices` exactly when it
skips every device. -/
theorem physical_device_new_loop_noSuitable_iff (l : List PhysicalDeviceData)
    (idx : Nat) :
    physical_device_new_loop l idx =
        Except.error PhysicalDeviceError.NoSuitableDevices ↔
      ∀ d ∈ l, device_step d = DeviceStep.skipped := by
  induction l generalizing idx with
  | nil => simp [physical_device_new_loop]
  | cons d rest ih =>
    rw [physical_device_new_loop_cons]
    cases hs : device_step d with
    | selected g p s => simp [hs]
    | skipped => simpa [hs] using ih (idx + 1)
    | failed e => simp [hs]

/-- If every device before position `i` is skipped and the device at `i`
is selected, the loop returns that device together with the accumulated
enumeration index. -/
theorem physical_device_new_loop_first (l : List PhysicalDeviceData)
    (idx i g p : Nat) (s : SwapchainSupportDetails) (hi : i < l.length)
    (hsel : device_step (l.get ⟨i, hi⟩) = .selected g p s)
    (hskip : ∀ j (hj : j < i),
      device_step (l.get ⟨j, Nat.lt_trans hj hi⟩) = .skipped) :
    physical_device_new_loop l idx =
      .ok { device := idx + i, graphics_family := g, present_family := p,
            swapchain_support := s } := by
  induction l generalizing idx i with
  | nil => exact absurd hi (Nat.not_lt_zero _)
  | cons d rest ih =>
    cases i with
    | zero =>
      have hd : device_step d = .selected g p s := hsel
      rw [physical_device_new_loop_cons, hd]
      simp
    | succ i2 =>
      have hd : device_step d = .skipped := hskip 0 (Nat.succ_pos _)
      rw [physical_device_new_loop_cons, hd]
      have hi2 : i2 < rest.length := Nat.lt_of_succ_lt_succ hi
      have hres := ih (idx + 1) i2 hi2 hsel
        (fun j hj => hskip (j + 1) (Nat.succ_lt_succ hj))
      have harith : idx + 1 + i2 = idx + (i2 + 1) := by omega
      rw [harith] at hres
      exact hres

/-- Counterexample to claim C2 as stated: the queue-family scan of
`cex_c2_device` fails with a Vulkan status error, yet
`PhysicalDevice::new` on the one-device enumeration returns
`NoSuitableDevices` instead of propagating the wrapped status — the
`if let Ok(v)` in the selection loop silently swallows the error. -/
theorem physical_device_new_swallows_scan_error :
    find_queue_families cex_c2_device.queue_families =
      Except.error { code := -1000000000 } ∧
    PhysicalDevice.new (.ok [cex_c2_device]) =
      Except.error PhysicalDeviceError.NoSuitableDevices := by
  decide

/-- Claim C2 (amended): `PhysicalDevice::new` fails with `NoDevices`
exactly when enumeration succeeds with an empty list, and with
`NoSuitableDevices` exactly when enumeration succeeds with a non-empty
list every device of which the loop skips — where a device is skipped not
only when it fails one of the three qualification checks, but also when
its queue-family scan fails with a driver error, that error being
swallowed rather than propagated.  Failures of the enumeration itself, of
the extension-support query and of the swapchain-support query are
propagated as wrapped Vulkan status errors. -/
theorem physical_device_new_error_classification
    (enum : Except VkErr (List PhysicalDeviceData)) :
    (PhysicalDevice.new enum = Except.error PhysicalDeviceError.NoDevices ↔
      enum = .ok []) ∧
    (PhysicalDevice.new enum =
        Except.error PhysicalDeviceError.NoSuitableDevices ↔
      ∃ l, enum = .ok l ∧ l ≠ [] ∧
        ∀ d ∈ l, device_step d = DeviceStep.skipped) := by
  cases enum with
  | error e => simp [PhysicalDevice.new]
  | ok devices =>
    cases devices with
    | nil => simp [PhysicalDevice.new]
    | cons d rest =>
      constructor
      · simp [PhysicalDevice.new,
          physical_device_new_loop_ne_noDevices (d :: rest) 0]
      · simp [PhysicalDevice.new,
          physical_device_new_loop_noSuitable_iff (d :: rest) 0]

/-- Claim C3: over fixed enumeration data, the first device in enumeration
order that passes all three qualification checks is selected, together
with its graphics and present queue-family indices; there is no scoring or
ranking, and as a pure function of the data the same device and indices
result on every run. -/
theorem physical_device_new_first_qualifying (l : List PhysicalDeviceData)
    (i g p : Nat) (s : SwapchainSupportDetails) (hi : i < l.length)
    (hsel : device_step (l.get ⟨i, hi⟩) = .selected g p s)
    (hskip : ∀ j (hj : j < i),
      device_step (l.get ⟨j, Nat.lt_trans hj hi⟩) = .skipped) :
    PhysicalDevice.new (.ok l) =
      .ok { device := i, graphics_family := g, present_family := p,
            swapchain_support := s } := by
  have hne : l.isEmpty = false := by
    cases l
    · exact absurd hi (Nat.not_lt_zero _)
    · rfl
  have hloop := physical_device_new_loop_first l 0 i g p s hi hsel hskip
  simpa [PhysicalDevice.new, hne] using hloop

/-- Witness for claim C3: a non-qualifying device first and a qualifying
one second — the second device (enumeration index 1) is selected with
queue-family indices 0/0. -/
theorem physical_device_new_first_qualifying_witness :
    device_step ([wit_c3_device_zero, wit_c3_device_one].get ⟨1, by decide⟩)
      = .selected 0 0 wit_c3_support ∧
    PhysicalDevice.new (.ok [wit_c3_device_zero, wit_c3_device_one]) =
      .ok { device := 1, graphics_family := 0, present_family := 0,
            swapchain_support := wit_c3_support } := by
  refine ⟨by decide, ?_⟩
  exact physical_device_new_first_qualifying
    [wit_c3_device_zero, wit_c3_device_one] 1 0 0 wit_c3_support
    (by decide) (by decide)
    (fun j hj => by
      interval_cases j
      exact (by decide : device_step wit_c3_device_zero = .skipped))

/-- Anchoring lemma for the scan: on an error-free family list, the loop
ends with each role holding the last matching index (shifted by the base
index `i`), falling back to the incoming accumulator. -/
theorem find_queue_families_loop_last (qf : List QueueFamilyProperties)
    (i : Nat) (acc : QueueFamilyIndices)
    (herr : ∀ f ∈ qf, f.surface_support.isOk) :
    find_queue_families_loop qf i acc =
      .ok { graphics_family :=
              shift_or (lastIdxWhere (fun f => f.graphics) qf) i
                acc.graphics_family
            present_family :=
              shift_or (lastIdxWhere reports_present_support qf) i
                acc.present_family } := by
  induction qf generalizing i acc with
  | nil => simp [find_queue_families_loop, lastIdxWhere, shift_or]
  | cons a rest ih =>
    obtain ⟨b, hb⟩ : ∃ b, a.surface_support = .ok b := by
      have hh := herr a (List.mem_cons_self a rest)
      cases hsup : a.surface_support with
      | ok bb => exact ⟨bb, rfl⟩
      | error e => rw [hsup] at hh; simp [Except.isOk, Except.toBool] at hh
    have herr2 : ∀ f ∈ rest, f.surface_support.isOk :=
      fun f hf => herr f (List.mem_cons_of_mem a hf)
    simp only [find_queue_families_loop, hb]
    rw [ih (i + 1) _ herr2]
    cases hag : a.graphics <;>
      cases hg : lastIdxWhere (fun f => f.graphics) rest <;>
        cases hp : lastIdxWhere reports_present_support rest <;>
          cases b <;>
            simp_all [lastIdxWhere, shift_or, reports_present_support,
              QueueFamilyIndices.mk.injEq] <;>
              omega

/-- Shifting a relative index by zero with no fallback is the identity. -/
theorem shift_or_zero (o : Option Nat) : shift_or o 0 none = o := by
  cases o <;> simp [shift_or]

/-- Claim C9: on an error-free queue-family scan, each role receives the
index of the last matching family in scan order — every later match
overwrites the earlier one, and the scan never stops early. -/
theorem find_queue_families_last_match (qf : List QueueFamilyProperties)
    (herr : ∀ f ∈ qf, f.surface_support.isOk) :
    find_queue_families qf =
      .ok { graphics_family := lastIdxWhere (fun f => f.graphics) qf
            present_family := lastIdxWhere reports_present_support qf } := by
  rw [find_queue_families, find_queue_families_loop_last qf 0 _ herr]
  simp [shift_or_zero]

/-- Witness for claim C9: graphics-capable families at indices 0 and 1 and
present-capable families at indices 1 and 2 — the scan returns the later
index for each role, not the first one. -/
theorem find_queue_families_last_match_witness :
    (∀ f ∈ wit_c9_families, f.surface_support.isOk) ∧
    find_queue_families wit_c9_families =
      .ok { graphics_family := some 1, present_family := some 2 } := by
  refine ⟨by decide, ?_⟩
  rw [find_queue_families_last_match wit_c9_families (by decide)]
  decide

/-- Any number of `draw_frame` calls leaves the command-buffer pool with
exactly two buffers, of which the one at index 1 has never been
recorded. -/
theorem run_draw_frames_shape (frames : List Nat) :
    ∃ x : Bool, (run_draw_frames frames).recorded = [x, false] := by
  induction frames with
  | nil => exact ⟨false, rfl⟩
  | cons current_frame rest ih =>
    obtain ⟨x, hx⟩ := ih
    refine ⟨true, ?_⟩
    simp only [run_draw_frames, draw_frame_commands, CommandBuffers.record,
      CommandBuffers.reset]
    rw [hx]
    rfl

/-- Claim C10: on every `draw_frame` call, whatever `current_frame` is,
only the command buffer at index 0 is reset and re-recorded while the
submit passes the whole two-buffer array — so the buffer at index 1 is
submitted on every call without ever having been recorded. -/
theorem draw_frame_commands_spec (frames : List Nat) (current_frame : Nat) :
    (draw_frame_commands (run_draw_frames frames) current_frame).submitted
        = [0, 1] ∧
    (run_draw_frames frames).recorded.getD 1 false = false ∧
    (draw_frame_commands (run_draw_frames frames)
        current_frame).state.recorded.getD 1 false = false := by
  obtain ⟨x, hx⟩ := run_draw_frames_shape frames
  have hstate :
      (draw_frame_commands (run_draw_frames frames)
        current_frame).state.recorded = [true, false] := by
    simp only [draw_frame_commands, CommandBuffers.record,
      CommandBuffers.reset]
    rw [hx]
    rfl
  refine ⟨?_, ?_, ?_⟩
  · show List.range
        ((draw_frame_commands (run_draw_frames frames)
          current_frame).state.recorded.length) = [0, 1]
    rw [hstate]
    decide
  · rw [hx]
    rfl
  · rw [hstate]
    rfl

end LearnVulkan
